import Mathlib

/-!
Verification of the Prometheus metrics HTTP responder
(`linkerd/metrics/src/serve.rs`, `Serve::is_gzip` and `Serve::call`).

Modelling choices:
* A Rust `&str` / header value is a list of bytes (`List Nat`); `HeaderValue::to_str`
  succeeds exactly when every byte is visible ASCII (32..126) or a tab (9), in which
  case the resulting `&str` has exactly those bytes.
* Rust renders the metrics `Display` output into a byte buffer as UTF-8; `strBytes`
  is the UTF-8 encoding of a Lean `String`.
* The metrics source (`FmtMetrics`, an external collaborator) is modelled by the
  outcome of rendering its current snapshot: `Except Unit String` (`.error` when the
  `write!` fails, carrying an `io::Error` that is only logged).
* The gzip encoder (`deflate::write::GzEncoder`, an external crate) is modelled as a
  function parameter `gzipFn : List Nat → List Nat` on the byte stream written to it.
* `Response::builder()` with the constant, known-valid status codes and header values
  used here cannot fail, so response construction is total in the model; the 500
  fallback of `unwrap_or_else` is reached exactly when rendering fails.
-/

/-- `b` is a byte `HeaderValue::to_str` accepts: visible ASCII or horizontal tab. -/
def isVisibleAscii (b : Nat) : Bool :=
  (32 ≤ b && b < 127) || b == 9

/-- Model of `HeaderValue::to_str().ok()`: yields the value's bytes as a `&str`
when every byte is visible ASCII, and `none` otherwise. -/
def headerToStr? (bs : List Nat) : Option (List Nat) :=
  if bs.all isVisibleAscii then some bs else none

/-- UTF-8 encoding of a single character, as naturals. -/
def utf8EncodeCharNat (c : Char) : List Nat :=
  let n := c.toNat
  if n < 128 then [n]
  else if n < 2048 then [192 + n / 64, 128 + n % 64]
  else if n < 65536 then [224 + n / 4096, 128 + (n / 64) % 64, 128 + n % 64]
  else [240 + n / 262144, 128 + (n / 4096) % 64, 128 + (n / 64) % 64, 128 + n % 64]

/-- The UTF-8 bytes of a string: what Rust writes into a byte buffer for it. -/
def strBytes (s : String) : List Nat :=
  s.data.flatMap utf8EncodeCharNat

/-- Model of Rust `str::contains(pat)`: byte-level substring search
(for valid UTF-8 and an ASCII pattern this coincides with character search). -/
def strContainsBytes (hay needle : List Nat) : Bool :=
  decide (needle <:+: hay)

/-- An inbound HTTP request, as `Serve::call` observes it: the URI path
(`req.uri().path()`, query string already excluded by the URI parser), the method,
and the list of all `Accept-Encoding` header values (raw bytes). -/
structure Request where
  method : String
  path : String
  acceptEncoding : List (List Nat)
deriving DecidableEq, Repr

/-- An HTTP response: status code, header list (name, value), body bytes. -/
structure Response where
  status : Nat
  headers : List (String × String)
  body : List Nat
deriving DecidableEq, Repr

/-- The per-value closure inside `Serve::is_gzip`:
`value.to_str().ok().map(|value| value.contains("gzip")).unwrap_or(false)`. -/
def acceptsGzipValue (v : List Nat) : Bool :=
  ((headerToStr? v).map fun s => strContainsBytes s (strBytes "gzip")).getD false

/-- Model of `Serve::is_gzip`: true when any `Accept-Encoding` value matches. -/
def is_gzip (req : Request) : Bool :=
  req.acceptEncoding.any acceptsGzipValue

/-- The `404 Not Found` response built for unrecognized paths. -/
def notFoundRsp : Response :=
  { status := 404, headers := [], body := [] }

/-- The `500 Internal Server Error` fallback response. -/
def serverErrorRsp : Response :=
  { status := 500, headers := [], body := [] }

/-- Model of `Serve::call`. `gzipFn` stands for the external gzip encoder
(`GzEncoder` + `finish`), `metrics` for the outcome of rendering the metrics
source's current snapshot with `write!`. -/
def call (gzipFn : List Nat → List Nat) (metrics : Except Unit String)
    (req : Request) : Response :=
  if req.path ≠ "/metrics" then
    notFoundRsp
  else
    let resp : Except Unit Response :=
      if is_gzip req then
        metrics.map fun s =>
          { status := 200
            headers := [("content-encoding", "gzip"), ("content-type", "text/plain")]
            body := gzipFn (strBytes s) }
      else
        metrics.map fun s =>
          { status := 200
            headers := [("content-type", "text/plain")]
            body := strBytes s }
    match resp with
    | .ok r => r
    | .error _ => serverErrorRsp

/-- Model of the full service method: `Serve::call` returns
`future::Ready<Result<Response, io::Error>>`, and always resolves `Ok`. -/
def call_service (gzipFn : List Nat → List Nat) (metrics : Except Unit String)
    (req : Request) : Except Unit Response :=
  Except.ok (call gzipFn metrics req)

/-- The `Serve` struct: it owns only the metrics source, modelled by the
outcome of rendering that source's current snapshot. -/
structure Serve where
  metrics : Except Unit String

/-- `Serve::call` takes `&mut self` but writes nothing to it: state-passing
model returning the response together with the (unchanged) state. -/
def Serve.call_mut (gzipFn : List Nat → List Nat) (srv : Serve)
    (req : Request) : Response × Serve :=
  (call gzipFn srv.metrics req, srv)

example : strBytes "gzip" = [103, 122, 105, 112] := by decide

example : acceptsGzipValue (strBytes "gzip, deflate") = true := by decide

example : acceptsGzipValue (strBytes "identity") = false := by decide

example : acceptsGzipValue [255] = false := by decide

example :
    call (fun b => b) (.ok "foo_total 1\n")
      { method := "GET", path := "/healthz", acceptEncoding := [] } = notFoundRsp := by
  decide

/-- A concrete request: `GET /metrics` with `Accept-Encoding: identity`. -/
def reqIdentity : Request :=
  { method := "GET", path := "/metrics", acceptEncoding := [strBytes "identity"] }

/-- A concrete request: `GET /metrics` with `Accept-Encoding: gzip, deflate`. -/
def reqGzipDeflate : Request :=
  { method := "GET", path := "/metrics",
    acceptEncoding := [strBytes "gzip, deflate"] }

/-- A concrete request: `GET /healthz` with a gzip `Accept-Encoding`. -/
def reqHealthz : Request :=
  { method := "GET", path := "/healthz", acceptEncoding := [strBytes "gzip"] }

/-- A concrete request: `GET /metrics` with no `Accept-Encoding` header. -/
def reqMetricsBare : Request :=
  { method := "GET", path := "/metrics", acceptEncoding := [] }

/-- A concrete request mixing one non-matching and one matching value. -/
def reqMixed : Request :=
  { method := "GET", path := "/metrics",
    acceptEncoding := [strBytes "identity", strBytes "gzip"] }

/-- A concrete request whose only `Accept-Encoding` value is the single
byte `0xFF`, which is not valid UTF-8 (nor visible ASCII). -/
def reqInvalidValue : Request :=
  { method := "GET", path := "/metrics", acceptEncoding := [[255]] }

/-- A concrete request: `GET /metrics` with `Accept-Encoding: gzip;q=0`. -/
def reqGzipQZero : Request :=
  { method := "GET", path := "/metrics", acceptEncoding := [strBytes "gzip;q=0"] }

/-- A concrete request whose `Accept-Encoding` values spell gzip only in
other letter cases. -/
def reqUpperGzip : Request :=
  { method := "GET", path := "/metrics",
    acceptEncoding := [strBytes "GZIP", strBytes "Gzip"] }

/-! ## Helper lemmas -/

/-- A value can only match gzip if the exact lowercase bytes of `"gzip"`
occur contiguously in it. -/
theorem acceptsGzipValue_imp_substring {v : List Nat}
    (h : acceptsGzipValue v = true) : strBytes "gzip" <:+: v := by
  by_cases hall : v.all isVisibleAscii
  · simp only [acceptsGzipValue, headerToStr?, hall, if_pos, Option.map_some,
      Option.getD_some, strContainsBytes] at h
    exact of_decide_eq_true h
  · simp [acceptsGzipValue, headerToStr?, hall] at h

/-! ## Claim theorems -/

/-- C1: a request to the metrics path whose `Accept-Encoding` values do not
match gzip gets a 200 response with `content-type: text/plain`, no
`content-encoding` header, and body exactly the rendered metrics text. -/
theorem metrics_plain_response (gzipFn : List Nat → List Nat) (s : String)
    (req : Request) (hpath : req.path = "/metrics") (hgz : is_gzip req = false) :
    (call gzipFn (Except.ok s) req).status = 200 ∧
    ("content-type", "text/plain") ∈ (call gzipFn (Except.ok s) req).headers ∧
    (∀ v, ("content-encoding", v) ∉ (call gzipFn (Except.ok s) req).headers) ∧
    (call gzipFn (Except.ok s) req).body = strBytes s := by
  have hr : call gzipFn (Except.ok s) req =
      { status := 200, headers := [("content-type", "text/plain")],
        body := strBytes s } := by
    simp [call, hpath, hgz, Except.map]
  rw [hr]
  refine ⟨rfl, by simp, ?_, rfl⟩
  intro v hv
  simp only [List.mem_singleton, Prod.mk.injEq] at hv
  exact absurd hv.1 (by decide)

theorem metrics_plain_response_witness :
    reqIdentity.path = "/metrics" ∧ is_gzip reqIdentity = false ∧
    (call (fun b => b) (Except.ok "foo_total 1\n") reqIdentity).body =
      strBytes "foo_total 1\n" :=
  ⟨rfl, by decide,
   (metrics_plain_response (fun b => b) "foo_total 1\n" reqIdentity rfl
     (by decide)).2.2.2⟩

/-- C2: a request to the metrics path with a gzip-matching `Accept-Encoding`
value gets a 200 response carrying `content-encoding: gzip` and
`content-type: text/plain`, whose body is the gzip encoder's output on the
rendered text; any decompressor inverting the encoder on that text recovers
exactly the rendered metrics bytes. -/
theorem metrics_gzip_response (gzipFn : List Nat → List Nat)
    (gunzipFn : List Nat → Option (List Nat)) (s : String) (req : Request)
    (hpath : req.path = "/metrics") (hgz : is_gzip req = true)
    (hinv : gunzipFn (gzipFn (strBytes s)) = some (strBytes s)) :
    (call gzipFn (Except.ok s) req).status = 200 ∧
    ("content-encoding", "gzip") ∈ (call gzipFn (Except.ok s) req).headers ∧
    ("content-type", "text/plain") ∈ (call gzipFn (Except.ok s) req).headers ∧
    (call gzipFn (Except.ok s) req).body = gzipFn (strBytes s) ∧
    gunzipFn (call gzipFn (Except.ok s) req).body = some (strBytes s) := by
  have hr : call gzipFn (Except.ok s) req =
      { status := 200
        headers := [("content-encoding", "gzip"), ("content-type", "text/plain")]
        body := gzipFn (strBytes s) } := by
    simp [call, hpath, hgz, Except.map]
  rw [hr]
  exact ⟨rfl, by simp, by simp, rfl, hinv⟩

theorem metrics_gzip_response_witness :
    reqGzipDeflate.path = "/metrics" ∧ is_gzip reqGzipDeflate = true ∧
    ("content-encoding", "gzip") ∈
      (call (fun b => b) (Except.ok "foo_total 1\n") reqGzipDeflate).headers ∧
    some (call (fun b => b) (Except.ok "foo_total 1\n") reqGzipDeflate).body =
      some (strBytes "foo_total 1\n") :=
  ⟨rfl, by decide,
   (metrics_gzip_response (fun b => b) some "foo_total 1\n" reqGzipDeflate rfl
     (by decide) rfl).2.1,
   (metrics_gzip_response (fun b => b) some "foo_total 1\n" reqGzipDeflate rfl
     (by decide) rfl).2.2.2.2⟩

/-- C3: any request whose path is not the metrics path gets a 404 response
with an empty body, whatever its method, headers, or the metrics source. -/
theorem non_metrics_path_not_found (gzipFn : List Nat → List Nat)
    (metrics : Except Unit String) (req : Request)
    (hpath : req.path ≠ "/metrics") :
    call gzipFn metrics req = notFoundRsp ∧
    (call gzipFn metrics req).status = 404 ∧
    (call gzipFn metrics req).body = [] := by
  have hr : call gzipFn metrics req = notFoundRsp := by
    simp [call, hpath]
  exact ⟨hr, by rw [hr]; rfl, by rw [hr]; rfl⟩

theorem non_metrics_path_not_found_witness :
    call (fun b => b) (Except.ok "foo_total 1\n") reqHealthz = notFoundRsp :=
  (non_metrics_path_not_found (fun b => b) (Except.ok "foo_total 1\n")
    reqHealthz (by decide)).1

/-- C4: the service never resolves to an error despite its declared error
type — every call returns `Ok`; when the path matches and rendering fails,
the substituted response is the fixed 500 with an empty body. -/
theorem call_never_errors (gzipFn : List Nat → List Nat)
    (metrics : Except Unit String) (req : Request) :
    call_service gzipFn metrics req = Except.ok (call gzipFn metrics req) ∧
    (req.path = "/metrics" → ∀ e : Unit, metrics = Except.error e →
      call gzipFn metrics req = serverErrorRsp) := by
  refine ⟨rfl, fun hpath e hm => ?_⟩
  subst hm
  simp [call, hpath, Except.map, ite_self]

theorem call_never_errors_witness :
    call_service (fun b => b) (Except.error ()) reqMetricsBare =
      Except.ok (call (fun b => b) (Except.error ()) reqMetricsBare) ∧
    call (fun b => b) (Except.error ()) reqMetricsBare = serverErrorRsp :=
  ⟨(call_never_errors (fun b => b) (Except.error ()) reqMetricsBare).1,
   (call_never_errors (fun b => b) (Except.error ()) reqMetricsBare).2 rfl () rfl⟩

/-- C5: path matching is an exact string comparison — any path other than
`"/metrics"`, including ones differing only by a query-style suffix, a
trailing slash, or letter case, receives a 404. -/
theorem path_match_is_exact (gzipFn : List Nat → List Nat)
    (metrics : Except Unit String) (meth : String) (ae : List (List Nat)) :
    (∀ p : String, p ≠ "/metrics" →
      (call gzipFn metrics
        { method := meth, path := p, acceptEncoding := ae }).status = 404) ∧
    (call gzipFn metrics
      { method := meth, path := "/metrics?foo=1", acceptEncoding := ae }).status = 404 ∧
    (call gzipFn metrics
      { method := meth, path := "/metrics/", acceptEncoding := ae }).status = 404 ∧
    (call gzipFn metrics
      { method := meth, path := "/METRICS", acceptEncoding := ae }).status = 404 := by
  have h : ∀ p : String, p ≠ "/metrics" →
      (call gzipFn metrics
        { method := meth, path := p, acceptEncoding := ae }).status = 404 := by
    intro p hp
    have := non_metrics_path_not_found gzipFn metrics
      { method := meth, path := p, acceptEncoding := ae } hp
    exact this.2.1
  exact ⟨h, h _ (by decide), h _ (by decide), h _ (by decide)⟩

theorem path_match_is_exact_witness :
    (call (fun b => b) (Except.ok "foo_total 1\n")
      { method := "GET", path := "/metrics/", acceptEncoding := [] }).status = 404 :=
  (path_match_is_exact (fun b => b) (Except.ok "foo_total 1\n") "GET" []).2.2.1

/-- C6: `call` is deterministic in the request and metrics snapshot — it
leaves the `Serve` state unchanged, so a second call on the post-state with
the same request returns a byte-identical response. -/
theorem call_deterministic (gzipFn : List Nat → List Nat) (srv : Serve)
    (req : Request) :
    (Serve.call_mut gzipFn srv req).2 = srv ∧
    (Serve.call_mut gzipFn (Serve.call_mut gzipFn srv req).2 req).1 =
      (Serve.call_mut gzipFn srv req).1 :=
  ⟨rfl, rfl⟩

/-- C7: a single matching `Accept-Encoding` value suffices — `is_gzip` is
true whenever any one of the possibly many header values matches, whatever
the other values look like. -/
theorem is_gzip_any_value_sufficient (req : Request) (v : List Nat)
    (hv : v ∈ req.acceptEncoding) (hm : acceptsGzipValue v = true) :
    is_gzip req = true := by
  simp only [is_gzip, List.any_eq_true]
  exact ⟨v, hv, hm⟩

theorem is_gzip_any_value_sufficient_witness : is_gzip reqMixed = true :=
  is_gzip_any_value_sufficient reqMixed (strBytes "gzip") (by decide) (by decide)

/-- C8: a header value whose bytes `to_str` cannot decode contributes
`false` instead of failing: it never matches, and deleting it from the
header list leaves the gzip decision unchanged. -/
theorem invalid_header_value_non_matching (v : List Nat)
    (hdec : headerToStr? v = none) (meth p : String)
    (l₁ l₂ : List (List Nat)) :
    acceptsGzipValue v = false ∧
    is_gzip { method := meth, path := p, acceptEncoding := l₁ ++ v :: l₂ } =
      is_gzip { method := meth, path := p, acceptEncoding := l₁ ++ l₂ } := by
  have hval : acceptsGzipValue v = false := by
    simp [acceptsGzipValue, hdec]
  exact ⟨hval, by simp [is_gzip, hval]⟩

theorem invalid_header_value_non_matching_witness :
    headerToStr? [255] = none ∧
    acceptsGzipValue [255] = false ∧
    is_gzip reqInvalidValue = false :=
  ⟨by decide,
   (invalid_header_value_non_matching [255] (by decide) "GET" "/metrics" [] []).1,
   by
    have := (invalid_header_value_non_matching [255] (by decide) "GET"
      "/metrics" [] []).2
    simpa [reqInvalidValue] using this⟩

/-- C9: gzip detection is a raw substring match, not an RFC 7231 parse —
a client sending `Accept-Encoding: gzip;q=0` (explicitly declining gzip)
still receives a 200 response with `content-encoding: gzip` and a
gzip-compressed body. -/
theorem gzip_q0_still_gzipped (gzipFn : List Nat → List Nat) (s : String) :
    is_gzip reqGzipQZero = true ∧
    (call gzipFn (Except.ok s) reqGzipQZero).status = 200 ∧
    ("content-encoding", "gzip") ∈ (call gzipFn (Except.ok s) reqGzipQZero).headers ∧
    (call gzipFn (Except.ok s) reqGzipQZero).body = gzipFn (strBytes s) := by
  have hgz : is_gzip reqGzipQZero = true := by decide
  have hpath : reqGzipQZero.path = "/metrics" := rfl
  have hr : call gzipFn (Except.ok s) reqGzipQZero =
      { status := 200
        headers := [("content-encoding", "gzip"), ("content-type", "text/plain")]
        body := gzipFn (strBytes s) } := by
    simp [call, hpath, hgz, Except.map]
  rw [hr]
  exact ⟨hgz, rfl, by simp, rfl⟩

/-- C10: the gzip substring match is case-sensitive — a value can only match
via the exact lowercase bytes `gzip`; a request to the metrics path none of
whose values contain that byte sequence (e.g. only `GZIP` or `Gzip`) is
served uncompressed, with no `content-encoding` header. -/
theorem gzip_match_case_sensitive (gzipFn : List Nat → List Nat) (s : String)
    (req : Request) (hpath : req.path = "/metrics")
    (hnone : ∀ v ∈ req.acceptEncoding, ¬ (strBytes "gzip" <:+: v)) :
    is_gzip req = false ∧
    call gzipFn (Except.ok s) req =
      { status := 200, headers := [("content-type", "text/plain")],
        body := strBytes s } := by
  have hgz : is_gzip req = false := by
    simp only [is_gzip, List.any_eq_false]
    intro v hv hm
    exact hnone v hv (acceptsGzipValue_imp_substring hm)
  exact ⟨hgz, by simp [call, hpath, hgz, Except.map]⟩

theorem gzip_match_case_sensitive_witness :
    is_gzip reqUpperGzip = false ∧
    (call (fun b => b) (Except.ok "foo_total 1\n") reqUpperGzip).headers =
      [("content-type", "text/plain")] :=
  ⟨(gzip_match_case_sensitive (fun b => b) "foo_total 1\n" reqUpperGzip rfl
     (by decide)).1,
   by
    rw [(gzip_match_case_sensitive (fun b => b) "foo_total 1\n" reqUpperGzip rfl
      (by decide)).2]⟩
